import Mathlib

/-!
Shallow embedding of the heterogeneous serialization subsystem of the
`plotly` Rust crate (files `src/private/mod.rs`, `src/scatter.rs`,
`src/traces/mesh3d.rs`, `src/traces/surface.rs`), together with theorems
settling the specification claims about it.

Modelling conventions:
* `f64` values are modelled as `Rat`.  No claim depends on floating-point
  rounding: the source only stores, compares against literal bounds, and
  re-emits these values, and every concrete input used below is exactly
  representable.
* `i64` / `i32` are modelled as `Int`, `u64` / `usize` as `Nat`
  (the source's `as i64` / `as u64` casts are value-preserving on the
  argument types at hand).
* serde's JSON output is modelled by the `Json` inductive below; a struct
  with `#[derive(Serialize)]` serializes to `Json.obj` of its fields in
  declaration order, a field with `skip_serializing_if = "Option::is_none"`
  contributing nothing when it is `None` (helper `optField`).
* a Rust `assert!` in a builder method is modelled by returning
  `Option` (`none` = panic/abort).
* types that the trace structs use but whose definitions live in modules
  outside the five embedded files (`crate::common`) are modelled from the
  spec as opaque values carrying their JSON rendering; each such
  definition says so in its doc comment.
-/

/-- JSON values as produced by `serde_json`.  Numbers are collapsed into a
single `Rat`-valued constructor (see the conventions above). -/
inductive Json where
  | null : Json
  | bool (b : Bool) : Json
  | num (q : Rat) : Json
  | str (s : String) : Json
  | arr (xs : List Json) : Json
  | obj (fs : List (String × Json)) : Json

/-- Serialization of one `Option` struct field marked
`#[serde(skip_serializing_if = "Option::is_none")]`: an absent field
contributes no key/value pair at all (never `null`). -/
def optField (key : String) (j : Option Json) : List (String × Json) :=
  match j with
  | none => []
  | some v => [(key, v)]

/-- Is this JSON value an object (i.e. does it carry a field-name tag
structure)?  Used to express "untagged" serialization. -/
def Json.isObj : Json → Bool
  | .obj _ => true
  | _ => false

namespace plotly

/-! ## `src/private/mod.rs` -/

/-- The color-representation union: `ColorWrapper` from
`crate::common::color`, whose two variants `F(f64)` / `S(String)` are
matched in `is_valid_color_array` (src/private/mod.rs:34-37).
Modelled from the spec: a color representation is a union of numeric
(colorscale-relative) and textual (named/hex color) entries. -/
inductive ColorWrapper where
  | F (n : Rat) : ColorWrapper
  | S (s : String) : ColorWrapper
deriving DecidableEq

/-- Untagged serialization of a color representation: the bare scalar. -/
def ColorWrapper.toJson : ColorWrapper → Json
  | .F n => .num n
  | .S s => .str s

/-- `is_valid_color_array` (src/private/mod.rs:30-41): partition the array
into textual entries `sv` and numeric entries `fv` by a single pass, then
return `!sv.is_empty() && !fv.is_empty()`. -/
def is_valid_color_array (a : List ColorWrapper) : Bool :=
  let acc := a.foldl
    (fun (p : List String × List Rat) e =>
      match e with
      | ColorWrapper.F n => (p.1, p.2 ++ [n])
      | ColorWrapper.S s => (p.1 ++ [s], p.2))
    ([], [])
  !acc.1.isEmpty && !acc.2.isEmpty

/-- `NumOrStringWrapper` (src/private/mod.rs:91-98): enum with variants
`S(String)`, `F(f64)`, `I(i64)`, `U(u64)`. -/
inductive NumOrStringWrapper where
  | S (s : String) : NumOrStringWrapper
  | F (f : Rat) : NumOrStringWrapper
  | I (i : Int) : NumOrStringWrapper
  | U (u : Nat) : NumOrStringWrapper
deriving DecidableEq

/-- `#[serde(untagged)]` serialization of `NumOrStringWrapper`: each
variant serializes as its bare payload, with no discriminant. -/
def NumOrStringWrapper.toJson : NumOrStringWrapper → Json
  | .S s => .str s
  | .F f => .num f
  | .I i => .num (i : Rat)
  | .U u => .num (u : Rat)

/-- `impl NumOrString for String` (src/private/mod.rs:43-47); the
`str` / `&String` / `&str` impls (lines 49-65) produce the same value. -/
def String.to_num_or_string (s : String) : NumOrStringWrapper :=
  .S s

/-- `impl NumOrString for f64` (src/private/mod.rs:67-71). -/
def f64_to_num_or_string (f : Rat) : NumOrStringWrapper :=
  .F f

/-- `impl NumOrString for usize` (src/private/mod.rs:73-77): `*self as u64`
(value-preserving). -/
def usize_to_num_or_string (u : Nat) : NumOrStringWrapper :=
  .U u

/-- `impl NumOrString for i32` (src/private/mod.rs:79-83): `*self as i64`
(value-preserving). -/
def i32_to_num_or_string (i : Int) : NumOrStringWrapper :=
  .I i

/-- `impl NumOrString for i64` (src/private/mod.rs:85-89). -/
def i64_to_num_or_string (i : Int) : NumOrStringWrapper :=
  .I i

/-- The quote-stripping step of `TruthyEnum`'s serializer
(src/private/mod.rs:113-117): keep exactly the characters that are not
`'"'`. -/
def stripQuotes (s : String) : String :=
  String.mk (s.data.filter (fun c => c ≠ '"'))

/-- `impl Serialize for TruthyEnum` (src/private/mod.rs:105-126), as a
function of the generic JSON rendering of the wrapped enum value:
strip quotes, emit a native boolean on an exact match with `true` /
`false`, otherwise emit the stripped text as a JSON string. -/
def truthyEnumSerialize (rendered : String) : Json :=
  let s := stripQuotes rendered
  if s = "true" then Json.bool true
  else if s = "false" then Json.bool false
  else Json.str s

/-- `copy_iterable_to_vec` (src/private/mod.rs:128-133): on lists this is
`collect`, i.e. the identity. -/
def copy_iterable_to_vec {α : Type _} (l : List α) : List α :=
  l.foldr (fun a acc => a :: acc) []

/-- `owned_string_vector` (src/private/mod.rs:8-12): normalize a vector of
string-like values to owned strings; on already-owned strings this maps
each element to itself. -/
def owned_string_vector (s : List String) : List String :=
  s.map (fun x => x)

/-! ## Types from `crate::common`

The trace structs reference value types defined in modules that are not
among the embedded files.  Per §2/§4.5 of the spec these are schema enums
and sub-objects with a fixed JSON rendering; each is modelled as an opaque
carrier of its rendering. -/

/-- Modelled from the spec: the chart-type discriminant `PlotType`
(`crate::common`), one variant per chart type, serialized as the
lowercase schema tag. -/
inductive PlotType where
  | scatter : PlotType
  | mesh3D : PlotType
  | surface : PlotType
deriving DecidableEq

def PlotType.toJson : PlotType → Json
  | .scatter => .str "scatter"
  | .mesh3D => .str "mesh3d"
  | .surface => .str "surface"

/-- Modelled from the spec: `Dim<T>` (`crate::common`), a sum of
"one value for all points" (`Scalar`) and "one value per point"
(`Vector`); `Scalar` serializes as the bare value, `Vector` as an
order-preserving JSON array (§4.2). -/
inductive Dim (α : Type _) where
  | Scalar (v : α) : Dim α
  | Vector (vs : List α) : Dim α

def Dim.toJson {α : Type _} (f : α → Json) : Dim α → Json
  | .Scalar v => f v
  | .Vector vs => .arr (vs.map f)

/-- Modelled from the spec: `Calendar` (`crate::common`), a calendar-system
enum with a deterministic textual serialization; modelled by its rendered
tag. -/
structure Calendar where
  render : String
deriving DecidableEq

def Calendar.toJson (c : Calendar) : Json := .str c.render

/-- Modelled from the spec: `Orientation` (`crate::common`), an enum with a
deterministic textual serialization (`"v"` / `"h"`); modelled by its
rendered tag. -/
structure Orientation where
  render : String
deriving DecidableEq

def Orientation.toJson (o : Orientation) : Json := .str o.render

/-- Modelled from the spec: `Visible` (`crate::common`), a three-way
visibility enum; modelled by its JSON rendering. -/
structure Visible where
  json : Json

/-- Modelled from the spec: `Mode` (`crate::common`); modelled by its JSON
rendering. -/
structure Mode where
  json : Json

/-- Modelled from the spec: `Position` (`crate::common`); modelled by its
JSON rendering. -/
structure Position where
  json : Json

/-- Modelled from the spec: `HoverInfo` (`crate::common`); modelled by its
JSON rendering. -/
structure HoverInfo where
  json : Json

/-- Modelled from the spec: `GroupNorm` (`crate::common`); modelled by its
JSON rendering. -/
structure GroupNorm where
  json : Json

/-- Modelled from the spec: `Marker` (`crate::common`), an out-of-scope
schema sub-object; modelled by its JSON rendering. -/
structure Marker where
  json : Json

/-- Modelled from the spec: `Line` (`crate::common`); modelled by its JSON
rendering. -/
structure Line where
  json : Json

/-- Modelled from the spec: `Font` (`crate::common`); modelled by its JSON
rendering. -/
structure Font where
  json : Json

/-- Modelled from the spec: `ErrorData` (`crate::common`); modelled by its
JSON rendering. -/
structure ErrorData where
  json : Json

/-- Modelled from the spec: `Fill` (`crate::common`); modelled by its JSON
rendering. -/
structure Fill where
  json : Json

/-- Modelled from the spec: `Label` (`crate::common`); modelled by its JSON
rendering. -/
structure Label where
  json : Json

/-- Modelled from the spec: `ColorBar` (`crate::common`); modelled by its
JSON rendering. -/
structure ColorBar where
  json : Json

/-- Modelled from the spec: `ColorScale` (`crate::common`); modelled by its
JSON rendering. -/
structure ColorScale where
  json : Json

/-- Modelled from the spec: `LegendGroupTitle` (`crate::common`); modelled
by its JSON rendering. -/
structure LegendGroupTitle where
  json : Json

/-! ## `src/scatter.rs` -/

/-- `Scatter<X, Y>` (src/scatter.rs:12-77): the 2D scatter trace struct,
fields in declaration order.  `x` and `y` are the mandatory geometry
(not `Option`); every other field except the `type` discriminant is
optional with absent-means-omitted serialization. -/
structure Scatter (X Y : Type _) where
  type : PlotType
  x : List X
  y : List Y
  name : Option String
  visible : Option Bool
  show_legend : Option Bool
  legend_group : Option String
  opacity : Option Rat
  mode : Option Mode
  ids : Option (List String)
  text : Option (Dim String)
  text_position : Option (Dim Position)
  text_template : Option (Dim String)
  hover_text : Option (Dim String)
  hover_info : Option HoverInfo
  hover_template : Option (Dim String)
  orientation : Option Orientation
  group_norm : Option GroupNorm
  stack_group : Option String
  marker : Option Marker
  line : Option Line
  text_font : Option Font
  error_x : Option ErrorData
  error_y : Option ErrorData
  clip_on_axis : Option Bool
  connect_gaps : Option Bool
  fill : Option Fill
  fill_color : Option String
  hover_label : Option Label
  hover_on : Option String
  stack_gaps : Option String
  x_calendar : Option Calendar
  y_calendar : Option Calendar

namespace Scatter

variable {X Y : Type _}

/-- `Scatter::new` (src/scatter.rs:84-120): mandatory geometry plus the
discriminant; every optional field starts `None`. -/
def new (x : List X) (y : List Y) : Scatter X Y where
  type := PlotType.scatter
  x := x
  y := y
  name := none
  visible := none
  show_legend := none
  legend_group := none
  opacity := none
  mode := none
  ids := none
  text := none
  text_position := none
  text_template := none
  hover_text := none
  hover_info := none
  hover_template := none
  orientation := none
  group_norm := none
  stack_group := none
  marker := none
  line := none
  text_font := none
  error_x := none
  error_y := none
  clip_on_axis := none
  connect_gaps := none
  fill := none
  fill_color := none
  hover_label := none
  hover_on := none
  stack_gaps := none
  x_calendar := none
  y_calendar := none

/-- `Scatter::name` (src/scatter.rs:122-125). -/
def set_name (s : Scatter X Y) (name : String) : Scatter X Y :=
  { s with name := some name }

/-- `Scatter::visible` (src/scatter.rs:127-130). -/
def set_visible (s : Scatter X Y) (visible : Bool) : Scatter X Y :=
  { s with visible := some visible }

/-- `Scatter::show_legend` (src/scatter.rs:132-135). -/
def set_show_legend (s : Scatter X Y) (show_legend : Bool) : Scatter X Y :=
  { s with show_legend := some show_legend }

/-- `Scatter::legend_group` (src/scatter.rs:137-140). -/
def set_legend_group (s : Scatter X Y) (legend_group : String) : Scatter X Y :=
  { s with legend_group := some legend_group }

/-- `Scatter::opacity` (src/scatter.rs:142-145). -/
def set_opacity (s : Scatter X Y) (opacity : Rat) : Scatter X Y :=
  { s with opacity := some opacity }

/-- `Scatter::mode` (src/scatter.rs:147-150). -/
def set_mode (s : Scatter X Y) (mode : Mode) : Scatter X Y :=
  { s with mode := some mode }

/-- `Scatter::ids` (src/scatter.rs:152-156). -/
def set_ids (s : Scatter X Y) (ids : List String) : Scatter X Y :=
  { s with ids := some (owned_string_vector ids) }

/-- `Scatter::text` (src/scatter.rs:158-161). -/
def set_text (s : Scatter X Y) (text : String) : Scatter X Y :=
  { s with text := some (Dim.Scalar text) }

/-- `Scatter::text_array` (src/scatter.rs:163-167). -/
def set_text_array (s : Scatter X Y) (text : List String) : Scatter X Y :=
  { s with text := some (Dim.Vector (owned_string_vector text)) }

/-- `Scatter::text_position` (src/scatter.rs:169-172). -/
def set_text_position (s : Scatter X Y) (text_position : Position) : Scatter X Y :=
  { s with text_position := some (Dim.Scalar text_position) }

/-- `Scatter::text_position_array` (src/scatter.rs:174-177). -/
def set_text_position_array (s : Scatter X Y) (text_position : List Position) : Scatter X Y :=
  { s with text_position := some (Dim.Vector text_position) }

/-- `Scatter::text_template` (src/scatter.rs:179-182). -/
def set_text_template (s : Scatter X Y) (text_template : String) : Scatter X Y :=
  { s with text_template := some (Dim.Scalar text_template) }

/-- `Scatter::text_template_array` (src/scatter.rs:184-191). -/
def set_text_template_array (s : Scatter X Y) (text_template : List String) : Scatter X Y :=
  { s with text_template := some (Dim.Vector (owned_string_vector text_template)) }

/-- `Scatter::hover_text` (src/scatter.rs:193-196). -/
def set_hover_text (s : Scatter X Y) (hover_text : String) : Scatter X Y :=
  { s with hover_text := some (Dim.Scalar hover_text) }

/-- `Scatter::hover_text_array` (src/scatter.rs:198-202). -/
def set_hover_text_array (s : Scatter X Y) (hover_text : List String) : Scatter X Y :=
  { s with hover_text := some (Dim.Vector (owned_string_vector hover_text)) }

/-- `Scatter::hover_info` (src/scatter.rs:204-207). -/
def set_hover_info (s : Scatter X Y) (hover_info : HoverInfo) : Scatter X Y :=
  { s with hover_info := some hover_info }

/-- `Scatter::hover_template` (src/scatter.rs:209-212). -/
def set_hover_template (s : Scatter X Y) (hover_template : String) : Scatter X Y :=
  { s with hover_template := some (Dim.Scalar hover_template) }

/-- `Scatter::hover_template_array` (src/scatter.rs:214-221). -/
def set_hover_template_array (s : Scatter X Y) (hover_template : List String) : Scatter X Y :=
  { s with hover_template := some (Dim.Vector (owned_string_vector hover_template)) }

/-- `Scatter::orientation` (src/scatter.rs:223-226). -/
def set_orientation (s : Scatter X Y) (orientation : Orientation) : Scatter X Y :=
  { s with orientation := some orientation }

/-- `Scatter::group_norm` (src/scatter.rs:228-231). -/
def set_group_norm (s : Scatter X Y) (group_norm : GroupNorm) : Scatter X Y :=
  { s with group_norm := some group_norm }

/-- `Scatter::stack_group` (src/scatter.rs:233-236). -/
def set_stack_group (s : Scatter X Y) (stack_group : String) : Scatter X Y :=
  { s with stack_group := some stack_group }

/-- `Scatter::marker` (src/scatter.rs:238-241). -/
def set_marker (s : Scatter X Y) (marker : Marker) : Scatter X Y :=
  { s with marker := some marker }

/-- `Scatter::line` (src/scatter.rs:243-246). -/
def set_line (s : Scatter X Y) (line : Line) : Scatter X Y :=
  { s with line := some line }

/-- `Scatter::text_font` (src/scatter.rs:248-251). -/
def set_text_font (s : Scatter X Y) (text_font : Font) : Scatter X Y :=
  { s with text_font := some text_font }

/-- `Scatter::error_x` (src/scatter.rs:253-256). -/
def set_error_x (s : Scatter X Y) (error_x : ErrorData) : Scatter X Y :=
  { s with error_x := some error_x }

/-- `Scatter::error_y` (src/scatter.rs:258-261). -/
def set_error_y (s : Scatter X Y) (error_y : ErrorData) : Scatter X Y :=
  { s with error_y := some error_y }

/-- `Scatter::clip_on_axis` (src/scatter.rs:263-266). -/
def set_clip_on_axis (s : Scatter X Y) (clip_on_axis : Bool) : Scatter X Y :=
  { s with clip_on_axis := some clip_on_axis }

/-- `Scatter::connect_gaps` (src/scatter.rs:268-271). -/
def set_connect_gaps (s : Scatter X Y) (connect_gaps : Bool) : Scatter X Y :=
  { s with connect_gaps := some connect_gaps }

/-- `Scatter::fill` (src/scatter.rs:273-276). -/
def set_fill (s : Scatter X Y) (fill : Fill) : Scatter X Y :=
  { s with fill := some fill }

/-- `Scatter::fill_color` (src/scatter.rs:278-281): the color argument is
normalized to its color string (`to_color_string`, modelled as the string
itself). -/
def set_fill_color (s : Scatter X Y) (fill_color : String) : Scatter X Y :=
  { s with fill_color := some fill_color }

/-- `Scatter::hover_label` (src/scatter.rs:283-286). -/
def set_hover_label (s : Scatter X Y) (hover_label : Label) : Scatter X Y :=
  { s with hover_label := some hover_label }

/-- `Scatter::hover_on` (src/scatter.rs:288-291). -/
def set_hover_on (s : Scatter X Y) (hover_on : String) : Scatter X Y :=
  { s with hover_on := some hover_on }

/-- `Scatter::stack_gaps` (src/scatter.rs:293-296). -/
def set_stack_gaps (s : Scatter X Y) (stack_gaps : String) : Scatter X Y :=
  { s with stack_gaps := some stack_gaps }

/-- `Scatter::x_calendar` (src/scatter.rs:298-301). -/
def set_x_calendar (s : Scatter X Y) (x_calendar : Calendar) : Scatter X Y :=
  { s with x_calendar := some x_calendar }

/-- `Scatter::y_calendar` (src/scatter.rs:303-306). -/
def set_y_calendar (s : Scatter X Y) (y_calendar : Calendar) : Scatter X Y :=
  { s with y_calendar := some y_calendar }

/-! serde-derived serialization of `Scatter` as the ordered field list of
the emitted JSON object: field keys follow the `rename` attributes of
src/scatter.rs:12-77, optional fields are emitted only when present.
The field list is split into consecutive chunks (`fields1` …
`fields4`) purely to keep compilation tractable; `fields` concatenates
them in declaration order. -/

/-- Optional fields `name` … `text` (src/scatter.rs:17-32). -/
def fields1 (s : Scatter X Y) : List (String × Json) :=
  List.flatten
    [optField "name" (s.name.map Json.str),
     optField "visible" (s.visible.map Json.bool),
     optField "showlegend" (s.show_legend.map Json.bool),
     optField "legendgroup" (s.legend_group.map Json.str),
     optField "opacity" (s.opacity.map Json.num),
     optField "mode" (s.mode.map Mode.json),
     optField "ids" (s.ids.map (fun v => Json.arr (v.map Json.str))),
     optField "text" (s.text.map (Dim.toJson Json.str))]

/-- Optional fields `text_position` … `stack_group`
(src/scatter.rs:33-48). -/
def fields2 (s : Scatter X Y) : List (String × Json) :=
  List.flatten
    [optField "textposition" (s.text_position.map (Dim.toJson Position.json)),
     optField "texttemplate" (s.text_template.map (Dim.toJson Json.str)),
     optField "hovertext" (s.hover_text.map (Dim.toJson Json.str)),
     optField "hoverinfo" (s.hover_info.map HoverInfo.json),
     optField "hovertemplate" (s.hover_template.map (Dim.toJson Json.str)),
     optField "orientation" (s.orientation.map Orientation.toJson),
     optField "groupnorm" (s.group_norm.map GroupNorm.json),
     optField "stackgroup" (s.stack_group.map Json.str)]

/-- Optional fields `marker` … `fill` (src/scatter.rs:49-64). -/
def fields3 (s : Scatter X Y) : List (String × Json) :=
  List.flatten
    [optField "marker" (s.marker.map Marker.json),
     optField "line" (s.line.map Line.json),
     optField "textfont" (s.text_font.map Font.json),
     optField "error_x" (s.error_x.map ErrorData.json),
     optField "error_y" (s.error_y.map ErrorData.json),
     optField "cliponaxis" (s.clip_on_axis.map Json.bool),
     optField "connectgaps" (s.connect_gaps.map Json.bool),
     optField "fill" (s.fill.map Fill.json)]

/-- Optional fields `fill_color` … `y_calendar` (src/scatter.rs:65-76). -/
def fields4 (s : Scatter X Y) : List (String × Json) :=
  List.flatten
    [optField "fillcolor" (s.fill_color.map Json.str),
     optField "hoverlabel" (s.hover_label.map Label.json),
     optField "hoveron" (s.hover_on.map Json.str),
     optField "stackgaps" (s.stack_gaps.map Json.str),
     optField "xcalendar" (s.x_calendar.map Calendar.toJson),
     optField "ycalendar" (s.y_calendar.map Calendar.toJson)]

/-- The full ordered field list of the emitted JSON object: the mandatory
discriminant and geometry (src/scatter.rs:14-16) followed by the optional
fields in declaration order.  `jx` / `jy` are the `Serialize` impls of the
coordinate element types. -/
def fields (jx : X → Json) (jy : Y → Json) (s : Scatter X Y) :
    List (String × Json) :=
  [("type", s.type.toJson),
   ("x", Json.arr (s.x.map jx)),
   ("y", Json.arr (s.y.map jy))]
  ++ fields1 s ++ fields2 s ++ fields3 s ++ fields4 s

/-- `impl Trace for Scatter` (src/scatter.rs:309-317):
`serde_json::to_string(&self)` renders the object. -/
def toJson (jx : X → Json) (jy : Y → Json) (s : Scatter X Y) : Json :=
  Json.obj (fields jx jy s)

end Scatter

/-! ## `src/traces/mesh3d.rs` -/

namespace mesh3d

/-- `IntensityMode` (src/traces/mesh3d.rs:16-21),
`#[serde(rename_all = "lowercase")]`. -/
inductive IntensityMode where
  | Vertex : IntensityMode
  | Cell : IntensityMode
deriving DecidableEq

def IntensityMode.toJson : IntensityMode → Json
  | .Vertex => .str "vertex"
  | .Cell => .str "cell"

/-- `DelaunayAxis` (src/traces/mesh3d.rs:23-29),
`#[serde(rename_all = "lowercase")]`. -/
inductive DelaunayAxis where
  | X : DelaunayAxis
  | Y : DelaunayAxis
  | Z : DelaunayAxis
deriving DecidableEq

def DelaunayAxis.toJson : DelaunayAxis → Json
  | .X => .str "x"
  | .Y => .str "y"
  | .Z => .str "z"

/-- `Contour` (src/traces/mesh3d.rs:31-39). -/
structure Contour where
  color : Option ColorWrapper
  «show» : Option Bool
  width : Option Nat

/-- `Contour::new` (src/traces/mesh3d.rs:42-44): all fields default. -/
def Contour.new : Contour :=
  ⟨none, none, none⟩

/-- `Contour::color` (src/traces/mesh3d.rs:47-50). -/
def Contour.set_color (c : Contour) (color : ColorWrapper) : Contour :=
  { c with color := some color }

/-- `Contour::show` (src/traces/mesh3d.rs:53-56). -/
def Contour.set_show (c : Contour) (b : Bool) : Contour :=
  { c with «show» := some b }

/-- `Contour::width` (src/traces/mesh3d.rs:59-63):
`assert!(1 <= width && width <= 16)`; `none` models the panic. -/
def Contour.set_width (c : Contour) (width : Nat) : Option Contour :=
  if 1 ≤ width ∧ width ≤ 16 then some { c with width := some width }
  else none

def Contour.fields (c : Contour) : List (String × Json) :=
  List.flatten
    [optField "color" (c.color.map ColorWrapper.toJson),
     optField "show" (c.«show».map Json.bool),
     optField "width" (c.width.map (fun w => Json.num (w : Rat)))]

def Contour.toJson (c : Contour) : Json :=
  Json.obj c.fields

/-- `Lighting` (src/traces/mesh3d.rs:66-82).  Serde keys:
`face_normals_epsilon` is renamed `facenormalsepsilon` (line 72) while
`vertex_normals_epsilon` is renamed `vertex_normals_epsilon` (line 80). -/
structure Lighting where
  ambient : Option Rat
  diffuse : Option Rat
  face_normals_epsilon : Option Rat
  fresnel : Option Rat
  roughness : Option Rat
  specular : Option Rat
  vertex_normals_epsilon : Option Rat

/-- `Lighting::new` (src/traces/mesh3d.rs:85-87). -/
def Lighting.new : Lighting :=
  ⟨none, none, none, none, none, none, none⟩

/-- `Lighting::ambient` (src/traces/mesh3d.rs:90-94):
`assert!(0.0 <= ambient && ambient <= 1.0)`; `none` models the panic. -/
def Lighting.set_ambient (l : Lighting) (ambient : Rat) : Option Lighting :=
  if 0 ≤ ambient ∧ ambient ≤ 1 then some { l with ambient := some ambient }
  else none

/-- `Lighting::diffuse` (src/traces/mesh3d.rs:97-101):
`assert!(0.0 <= diffuse && diffuse <= 1.0)`. -/
def Lighting.set_diffuse (l : Lighting) (diffuse : Rat) : Option Lighting :=
  if 0 ≤ diffuse ∧ diffuse ≤ 1 then some { l with diffuse := some diffuse }
  else none

/-- `Lighting::facenormalsepsilon` (src/traces/mesh3d.rs:104-108):
`assert!(0.0 <= face_normals_epsilon && face_normals_epsilon <= 1.0)`. -/
def Lighting.set_facenormalsepsilon (l : Lighting) (v : Rat) : Option Lighting :=
  if 0 ≤ v ∧ v ≤ 1 then some { l with face_normals_epsilon := some v }
  else none

/-- `Lighting::fresnel` (src/traces/mesh3d.rs:111-115):
`assert!(0.0 <= fresnel && fresnel <= 5.0)`. -/
def Lighting.set_fresnel (l : Lighting) (fresnel : Rat) : Option Lighting :=
  if 0 ≤ fresnel ∧ fresnel ≤ 5 then some { l with fresnel := some fresnel }
  else none

/-- `Lighting::roughness` (src/traces/mesh3d.rs:118-122):
`assert!(0.0 <= roughness && roughness <= 1.0)`. -/
def Lighting.set_roughness (l : Lighting) (roughness : Rat) : Option Lighting :=
  if 0 ≤ roughness ∧ roughness ≤ 1 then
    some { l with roughness := some roughness }
  else none

/-- `Lighting::specular` (src/traces/mesh3d.rs:125-129):
`assert!(0.0 <= specular && specular <= 2.0)`. -/
def Lighting.set_specular (l : Lighting) (specular : Rat) : Option Lighting :=
  if 0 ≤ specular ∧ specular ≤ 2 then
    some { l with specular := some specular }
  else none

/-- `Lighting::vertexnormalsepsilon` (src/traces/mesh3d.rs:132-136):
`assert!(0.0 <= vertex_normals_epsilon && vertex_normals_epsilon <= 1.0)`. -/
def Lighting.set_vertexnormalsepsilon (l : Lighting) (v : Rat) : Option Lighting :=
  if 0 ≤ v ∧ v ≤ 1 then some { l with vertex_normals_epsilon := some v }
  else none

def Lighting.fields (l : Lighting) : List (String × Json) :=
  List.flatten
    [optField "ambient" (l.ambient.map Json.num),
     optField "diffuse" (l.diffuse.map Json.num),
     optField "facenormalsepsilon" (l.face_normals_epsilon.map Json.num),
     optField "fresnel" (l.fresnel.map Json.num),
     optField "roughness" (l.roughness.map Json.num),
     optField "specular" (l.specular.map Json.num),
     optField "vertex_normals_epsilon" (l.vertex_normals_epsilon.map Json.num)]

def Lighting.toJson (l : Lighting) : Json :=
  Json.obj l.fields

/-- `LightPosition` (src/traces/mesh3d.rs:139-147). -/
structure LightPosition where
  x : Option (List Rat)
  y : Option (List Rat)
  z : Option (List Rat)

/-- `LightPosition::new` (src/traces/mesh3d.rs:150-152). -/
def LightPosition.new : LightPosition :=
  ⟨none, none, none⟩

/-- `LightPosition::x` (src/traces/mesh3d.rs:155-161): every coordinate is
asserted to lie in `[-100000, 100000]`; `none` models the panic. -/
def LightPosition.set_x (p : LightPosition) (x : List Rat) : Option LightPosition :=
  if ∀ xi ∈ x, -100000 ≤ xi ∧ xi ≤ 100000 then some { p with x := some x }
  else none

/-- `LightPosition::y` (src/traces/mesh3d.rs:164-170). -/
def LightPosition.set_y (p : LightPosition) (y : List Rat) : Option LightPosition :=
  if ∀ yi ∈ y, -100000 ≤ yi ∧ yi ≤ 100000 then some { p with y := some y }
  else none

/-- `LightPosition::z` (src/traces/mesh3d.rs:173-179). -/
def LightPosition.set_z (p : LightPosition) (z : List Rat) : Option LightPosition :=
  if ∀ zi ∈ z, -100000 ≤ zi ∧ zi ≤ 100000 then some { p with z := some z }
  else none

def LightPosition.fields (p : LightPosition) : List (String × Json) :=
  List.flatten
    [optField "x" (p.x.map (fun v => Json.arr (v.map Json.num))),
     optField "y" (p.y.map (fun v => Json.arr (v.map Json.num))),
     optField "z" (p.z.map (fun v => Json.arr (v.map Json.num)))]

def LightPosition.toJson (p : LightPosition) : Json :=
  Json.obj p.fields

/-- `Mesh3D<X, Y, Z>` (src/traces/mesh3d.rs:185-315): fields in
declaration order.  `meta` / `ui_revision` hold a `NumOrString` scalar and
`custom_data` a `NumOrStringCollection`, both modelled by
`NumOrStringWrapper`; `Box<dyn Color>` is modelled by its
color-representation `ColorWrapper`. -/
structure Mesh3D (X Y Z : Type _) where
  type : PlotType
  name : Option String
  visible : Option Visible
  show_legend : Option Bool
  legend_rank : Option Nat
  legend_group : Option String
  legend_group_title : Option LegendGroupTitle
  opacity : Option Rat
  ids : Option (List String)
  x : Option (List X)
  y : Option (List Y)
  z : Option (List Z)
  i : Option (List Nat)
  j : Option (List Nat)
  k : Option (List Nat)
  face_color : Option (List ColorWrapper)
  intensity : Option (List Rat)
  intensity_mode : Option IntensityMode
  vertex_color : Option (List ColorWrapper)
  text : Option (Dim String)
  hover_text : Option (Dim String)
  hover_info : Option HoverInfo
  hover_template : Option (Dim String)
  x_hover_format : Option String
  y_hover_format : Option String
  meta : Option NumOrStringWrapper
  custom_data : Option (List NumOrStringWrapper)
  scene : Option String
  color_axis : Option String
  color : Option ColorWrapper
  color_bar : Option ColorBar
  color_bar_orientation : Option Orientation
  auto_color_scale : Option Bool
  color_scale : Option ColorScale
  show_scale : Option Bool
  reverse_scale : Option Bool
  z_hover_format : Option String
  cauto : Option Bool
  cmax : Option Rat
  cmid : Option Rat
  cmin : Option Rat
  alpha_hull : Option Rat
  delaunay_axis : Option DelaunayAxis
  contour : Option Contour
  flat_shading : Option Bool
  hover_label : Option Label
  lighting : Option Lighting
  light_position : Option LightPosition
  x_calendar : Option Calendar
  y_calendar : Option Calendar
  z_calendar : Option Calendar
  ui_revision : Option NumOrStringWrapper

namespace Mesh3D

variable {X Y Z : Type _}

/-- `Mesh3D::new` (src/traces/mesh3d.rs:323-350): collect the six
mandatory geometry iterables (`copy_iterable_to_vec`) into the `x`, `y`,
`z`, `i`, `j`, `k` fields, set the discriminant, and default everything
else to `None`. -/
def new (x : List X) (y : List Y) (z : List Z)
    (i : List Nat) (j : List Nat) (k : List Nat) : Mesh3D X Y Z where
  type := PlotType.mesh3D
  name := none
  visible := none
  show_legend := none
  legend_rank := none
  legend_group := none
  legend_group_title := none
  opacity := none
  ids := none
  x := some (copy_iterable_to_vec x)
  y := some (copy_iterable_to_vec y)
  z := some (copy_iterable_to_vec z)
  i := some (copy_iterable_to_vec i)
  j := some (copy_iterable_to_vec j)
  k := some (copy_iterable_to_vec k)
  face_color := none
  intensity := none
  intensity_mode := none
  vertex_color := none
  text := none
  hover_text := none
  hover_info := none
  hover_template := none
  x_hover_format := none
  y_hover_format := none
  meta := none
  custom_data := none
  scene := none
  color_axis := none
  color := none
  color_bar := none
  color_bar_orientation := none
  auto_color_scale := none
  color_scale := none
  show_scale := none
  reverse_scale := none
  z_hover_format := none
  cauto := none
  cmax := none
  cmid := none
  cmin := none
  alpha_hull := none
  delaunay_axis := none
  contour := none
  flat_shading := none
  hover_label := none
  lighting := none
  light_position := none
  x_calendar := none
  y_calendar := none
  z_calendar := none
  ui_revision := none

/-- `Mesh3D::name` (src/traces/mesh3d.rs:353-356). -/
def set_name (m : Mesh3D X Y Z) (name : String) : Mesh3D X Y Z :=
  { m with name := some name }

/-- `Mesh3D::visible` (src/traces/mesh3d.rs:360-363). -/
def set_visible (m : Mesh3D X Y Z) (visible : Visible) : Mesh3D X Y Z :=
  { m with visible := some visible }

/-- `Mesh3D::show_legend` (src/traces/mesh3d.rs:366-369). -/
def set_show_legend (m : Mesh3D X Y Z) (show_legend : Bool) : Mesh3D X Y Z :=
  { m with show_legend := some show_legend }

/-- `Mesh3D::legend_rank` (src/traces/mesh3d.rs:375-378). -/
def set_legend_rank (m : Mesh3D X Y Z) (legend_rank : Nat) : Mesh3D X Y Z :=
  { m with legend_rank := some legend_rank }

/-- `Mesh3D::legend_group` (src/traces/mesh3d.rs:382-385). -/
def set_legend_group (m : Mesh3D X Y Z) (legend_group : String) : Mesh3D X Y Z :=
  { m with legend_group := some legend_group }

/-- `Mesh3D::legend_group_title` (src/traces/mesh3d.rs:388-391). -/
def set_legend_group_title (m : Mesh3D X Y Z) (t : LegendGroupTitle) : Mesh3D X Y Z :=
  { m with legend_group_title := some t }

/-- `Mesh3D::opacity` (src/traces/mesh3d.rs:394-397). -/
def set_opacity (m : Mesh3D X Y Z) (opacity : Rat) : Mesh3D X Y Z :=
  { m with opacity := some opacity }

/-- `Mesh3D::ids` (src/traces/mesh3d.rs:401-405). -/
def set_ids (m : Mesh3D X Y Z) (ids : List String) : Mesh3D X Y Z :=
  { m with ids := some (owned_string_vector ids) }

/-- `Mesh3D::facecolor` (src/traces/mesh3d.rs:408-412): each concrete
color is boxed into its color representation. -/
def set_facecolor (m : Mesh3D X Y Z) (face_color : List ColorWrapper) : Mesh3D X Y Z :=
  { m with face_color := some face_color }

/-- `Mesh3D::intensity` (src/traces/mesh3d.rs:416-419). -/
def set_intensity (m : Mesh3D X Y Z) (intensity : List Rat) : Mesh3D X Y Z :=
  { m with intensity := some intensity }

/-- `Mesh3D::intensitymode` (src/traces/mesh3d.rs:422-425). -/
def set_intensitymode (m : Mesh3D X Y Z) (im : IntensityMode) : Mesh3D X Y Z :=
  { m with intensity_mode := some im }

/-- `Mesh3D::vertexcolor` (src/traces/mesh3d.rs:428-432). -/
def set_vertexcolor (m : Mesh3D X Y Z) (vertex_color : List ColorWrapper) : Mesh3D X Y Z :=
  { m with vertex_color := some vertex_color }

/-- `Mesh3D::text` (src/traces/mesh3d.rs:438-441). -/
def set_text (m : Mesh3D X Y Z) (text : String) : Mesh3D X Y Z :=
  { m with text := some (Dim.Scalar text) }

/-- `Mesh3D::text_array` (src/traces/mesh3d.rs:446-450). -/
def set_text_array (m : Mesh3D X Y Z) (text : List String) : Mesh3D X Y Z :=
  { m with text := some (Dim.Vector (owned_string_vector text)) }

/-- `Mesh3D::hover_text` (src/traces/mesh3d.rs:456-459). -/
def set_hover_text (m : Mesh3D X Y Z) (hover_text : String) : Mesh3D X Y Z :=
  { m with hover_text := some (Dim.Scalar hover_text) }

/-- `Mesh3D::hover_text_array` (src/traces/mesh3d.rs:463-467). -/
def set_hover_text_array (m : Mesh3D X Y Z) (hover_text : List String) : Mesh3D X Y Z :=
  { m with hover_text := some (Dim.Vector (owned_string_vector hover_text)) }

/-- `Mesh3D::hover_info` (src/traces/mesh3d.rs:472-475). -/
def set_hover_info (m : Mesh3D X Y Z) (hover_info : HoverInfo) : Mesh3D X Y Z :=
  { m with hover_info := some hover_info }

/-- `Mesh3D::hover_template` (src/traces/mesh3d.rs:491-494). -/
def set_hover_template (m : Mesh3D X Y Z) (hover_template : String) : Mesh3D X Y Z :=
  { m with hover_template := some (Dim.Scalar hover_template) }

/-- `Mesh3D::hover_template_array` (src/traces/mesh3d.rs:510-514). -/
def set_hover_template_array (m : Mesh3D X Y Z) (hover_template : List String) : Mesh3D X Y Z :=
  { m with hover_template := some (Dim.Vector (owned_string_vector hover_template)) }

/-- `Mesh3D::xhoverformat` (src/traces/mesh3d.rs:517-520). -/
def set_xhoverformat (m : Mesh3D X Y Z) (x_hover_format : String) : Mesh3D X Y Z :=
  { m with x_hover_format := some x_hover_format }

/-- `Mesh3D::yhoverformat` (src/traces/mesh3d.rs:523-526). -/
def set_yhoverformat (m : Mesh3D X Y Z) (y_hover_format : String) : Mesh3D X Y Z :=
  { m with y_hover_format := some y_hover_format }

/-- `Mesh3D::meta` (src/traces/mesh3d.rs:535-538). -/
def set_meta (m : Mesh3D X Y Z) (meta : NumOrStringWrapper) : Mesh3D X Y Z :=
  { m with meta := some meta }

/-- `Mesh3D::custom_data` (src/traces/mesh3d.rs:543-546). -/
def set_custom_data (m : Mesh3D X Y Z) (custom_data : List NumOrStringWrapper) : Mesh3D X Y Z :=
  { m with custom_data := some custom_data }

/-- `Mesh3D::scene` (src/traces/mesh3d.rs:551-554). -/
def set_scene (m : Mesh3D X Y Z) (scene : String) : Mesh3D X Y Z :=
  { m with scene := some scene }

/-- `Mesh3D::coloraxis` (src/traces/mesh3d.rs:557-560). -/
def set_coloraxis (m : Mesh3D X Y Z) (color_axis : String) : Mesh3D X Y Z :=
  { m with color_axis := some color_axis }

/-- `Mesh3D::color` (src/traces/mesh3d.rs:563-566). -/
def set_color (m : Mesh3D X Y Z) (color : ColorWrapper) : Mesh3D X Y Z :=
  { m with color := some color }

/-- `Mesh3D::colorbar` (src/traces/mesh3d.rs:568-571). -/
def set_colorbar (m : Mesh3D X Y Z) (color_bar : ColorBar) : Mesh3D X Y Z :=
  { m with color_bar := some color_bar }

/-- `Mesh3D::orientation` (src/traces/mesh3d.rs:577-580): despite its
name, this setter writes the `color_bar_orientation` field. -/
def set_orientation (m : Mesh3D X Y Z) (orientation : Orientation) : Mesh3D X Y Z :=
  { m with color_bar_orientation := some orientation }

/-- `Mesh3D::auto_color_scale` (src/traces/mesh3d.rs:583-586). -/
def set_auto_color_scale (m : Mesh3D X Y Z) (b : Bool) : Mesh3D X Y Z :=
  { m with auto_color_scale := some b }

/-- `Mesh3D::color_scale` (src/traces/mesh3d.rs:589-592). -/
def set_color_scale (m : Mesh3D X Y Z) (color_scale : ColorScale) : Mesh3D X Y Z :=
  { m with color_scale := some color_scale }

/-- `Mesh3D::show_scale` (src/traces/mesh3d.rs:595-598). -/
def set_show_scale (m : Mesh3D X Y Z) (show_scale : Bool) : Mesh3D X Y Z :=
  { m with show_scale := some show_scale }

/-- `Mesh3D::reverse_scale` (src/traces/mesh3d.rs:601-604). -/
def set_reverse_scale (m : Mesh3D X Y Z) (reverse_scale : Bool) : Mesh3D X Y Z :=
  { m with reverse_scale := some reverse_scale }

/-- `Mesh3D::zhoverformat` (src/traces/mesh3d.rs:607-610). -/
def set_zhoverformat (m : Mesh3D X Y Z) (z_hover_format : String) : Mesh3D X Y Z :=
  { m with z_hover_format := some z_hover_format }

/-- `Mesh3D::cauto` (src/traces/mesh3d.rs:613-616). -/
def set_cauto (m : Mesh3D X Y Z) (cauto : Bool) : Mesh3D X Y Z :=
  { m with cauto := some cauto }

/-- `Mesh3D::cmax` (src/traces/mesh3d.rs:619-622). -/
def set_cmax (m : Mesh3D X Y Z) (cmax : Rat) : Mesh3D X Y Z :=
  { m with cmax := some cmax }

/-- `Mesh3D::cmin` (src/traces/mesh3d.rs:625-628). -/
def set_cmin (m : Mesh3D X Y Z) (cmin : Rat) : Mesh3D X Y Z :=
  { m with cmin := some cmin }

/-- `Mesh3D::cmid` (src/traces/mesh3d.rs:631-634). -/
def set_cmid (m : Mesh3D X Y Z) (cmid : Rat) : Mesh3D X Y Z :=
  { m with cmid := some cmid }

/-- `Mesh3D::alphahull` (src/traces/mesh3d.rs:637-640). -/
def set_alphahull (m : Mesh3D X Y Z) (alpha_hull : Rat) : Mesh3D X Y Z :=
  { m with alpha_hull := some alpha_hull }

/-- `Mesh3D::delaunayaxis` (src/traces/mesh3d.rs:643-646). -/
def set_delaunayaxis (m : Mesh3D X Y Z) (da : DelaunayAxis) : Mesh3D X Y Z :=
  { m with delaunay_axis := some da }

/-- `Mesh3D::contour` (src/traces/mesh3d.rs:648-651). -/
def set_contour (m : Mesh3D X Y Z) (contour : Contour) : Mesh3D X Y Z :=
  { m with contour := some contour }

/-- `Mesh3D::flatshading` (src/traces/mesh3d.rs:654-657). -/
def set_flatshading (m : Mesh3D X Y Z) (flat_shading : Bool) : Mesh3D X Y Z :=
  { m with flat_shading := some flat_shading }

/-- `Mesh3D::hover_label` (src/traces/mesh3d.rs:660-663). -/
def set_hover_label (m : Mesh3D X Y Z) (hover_label : Label) : Mesh3D X Y Z :=
  { m with hover_label := some hover_label }

/-- `Mesh3D::lighting` (src/traces/mesh3d.rs:665-668). -/
def set_lighting (m : Mesh3D X Y Z) (lighting : Lighting) : Mesh3D X Y Z :=
  { m with lighting := some lighting }

/-- `Mesh3D::lightposition` (src/traces/mesh3d.rs:670-673). -/
def set_lightposition (m : Mesh3D X Y Z) (lp : LightPosition) : Mesh3D X Y Z :=
  { m with light_position := some lp }

/-- `Mesh3D::x_calendar` (src/traces/mesh3d.rs:676-679). -/
def set_x_calendar (m : Mesh3D X Y Z) (x_calendar : Calendar) : Mesh3D X Y Z :=
  { m with x_calendar := some x_calendar }

/-- `Mesh3D::y_calendar` (src/traces/mesh3d.rs:682-685). -/
def set_y_calendar (m : Mesh3D X Y Z) (y_calendar : Calendar) : Mesh3D X Y Z :=
  { m with y_calendar := some y_calendar }

/-- `Mesh3D::z_calendar` (src/traces/mesh3d.rs:688-691). -/
def set_z_calendar (m : Mesh3D X Y Z) (z_calendar : Calendar) : Mesh3D X Y Z :=
  { m with z_calendar := some z_calendar }

/-- `Mesh3D::uirevision` (src/traces/mesh3d.rs:694-697). -/
def set_uirevision (m : Mesh3D X Y Z) (ui_revision : NumOrStringWrapper) : Mesh3D X Y Z :=
  { m with ui_revision := some ui_revision }

/-! serde-derived serialization of `Mesh3D`, split into consecutive
chunks purely to keep compilation tractable.  Keys follow the `rename`
attributes of src/traces/mesh3d.rs:194-315 — in particular `z_calendar`
carries `rename = "ycalendar"` (line 310), the same key as `y_calendar`
(line 308). -/

/-- Fields `name` … `opacity` (src/traces/mesh3d.rs:195-210). -/
def fields1 (m : Mesh3D X Y Z) : List (String × Json) :=
  List.flatten
    [optField "name" (m.name.map Json.str),
     optField "visible" (m.visible.map Visible.json),
     optField "showlegend" (m.show_legend.map Json.bool),
     optField "legendrank" (m.legend_rank.map (fun r => Json.num (r : Rat))),
     optField "legendgroup" (m.legend_group.map Json.str),
     optField "legendgrouptitle" (m.legend_group_title.map LegendGroupTitle.json),
     optField "opacity" (m.opacity.map Json.num)]

/-- Fields `ids` … `k` (src/traces/mesh3d.rs:212-227). -/
def fields2 (jx : X → Json) (jy : Y → Json) (jz : Z → Json)
    (m : Mesh3D X Y Z) : List (String × Json) :=
  List.flatten
    [optField "ids" (m.ids.map (fun v => Json.arr (v.map Json.str))),
     optField "x" (m.x.map (fun v => Json.arr (v.map jx))),
     optField "y" (m.y.map (fun v => Json.arr (v.map jy))),
     optField "z" (m.z.map (fun v => Json.arr (v.map jz))),
     optField "i" (m.i.map (fun v => Json.arr (v.map (fun n => Json.num (n : Rat))))),
     optField "j" (m.j.map (fun v => Json.arr (v.map (fun n => Json.num (n : Rat))))),
     optField "k" (m.k.map (fun v => Json.arr (v.map (fun n => Json.num (n : Rat)))))]

/-- Fields `face_color` … `hover_template` (src/traces/mesh3d.rs:229-245). -/
def fields3 (m : Mesh3D X Y Z) : List (String × Json) :=
  List.flatten
    [optField "facecolor" (m.face_color.map (fun v => Json.arr (v.map ColorWrapper.toJson))),
     optField "intensity" (m.intensity.map (fun v => Json.arr (v.map Json.num))),
     optField "intensitymode" (m.intensity_mode.map IntensityMode.toJson),
     optField "vertexcolor" (m.vertex_color.map (fun v => Json.arr (v.map ColorWrapper.toJson))),
     optField "text" (m.text.map (Dim.toJson Json.str)),
     optField "hovertext" (m.hover_text.map (Dim.toJson Json.str)),
     optField "hoverinfo" (m.hover_info.map HoverInfo.json),
     optField "hovertemplate" (m.hover_template.map (Dim.toJson Json.str))]

/-- Fields `x_hover_format` … `color` (src/traces/mesh3d.rs:246-261). -/
def fields4 (m : Mesh3D X Y Z) : List (String × Json) :=
  List.flatten
    [optField "xhoverformat" (m.x_hover_format.map Json.str),
     optField "yhoverformat" (m.y_hover_format.map Json.str),
     optField "meta" (m.meta.map NumOrStringWrapper.toJson),
     optField "custom_data" (m.custom_data.map (fun v => Json.arr (v.map NumOrStringWrapper.toJson))),
     optField "scene" (m.scene.map Json.str),
     optField "coloraxis" (m.color_axis.map Json.str),
     optField "color" (m.color.map ColorWrapper.toJson)]

/-- Fields `color_bar` … `z_hover_format` (src/traces/mesh3d.rs:263-278). -/
def fields5 (m : Mesh3D X Y Z) : List (String × Json) :=
  List.flatten
    [optField "colorbar" (m.color_bar.map ColorBar.json),
     optField "colorbar_orientation" (m.color_bar_orientation.map Orientation.toJson),
     optField "autocolorscale" (m.auto_color_scale.map Json.bool),
     optField "colorscale" (m.color_scale.map ColorScale.json),
     optField "showscale" (m.show_scale.map Json.bool),
     optField "reversescale" (m.reverse_scale.map Json.bool),
     optField "zhoverformat" (m.z_hover_format.map Json.str)]

/-- Fields `cauto` … `contour` (src/traces/mesh3d.rs:280-293). -/
def fields6 (m : Mesh3D X Y Z) : List (String × Json) :=
  List.flatten
    [optField "cauto" (m.cauto.map Json.bool),
     optField "cmax" (m.cmax.map Json.num),
     optField "cmid" (m.cmid.map Json.num),
     optField "cmin" (m.cmin.map Json.num),
     optField "alphahull" (m.alpha_hull.map Json.num),
     optField "delaunayaxis" (m.delaunay_axis.map DelaunayAxis.toJson),
     optField "contour" (m.contour.map Contour.toJson)]

/-- Fields `flat_shading` … `ui_revision` (src/traces/mesh3d.rs:295-314).
Note the serde keys: `x_calendar` → `"xcalendar"` (line 306),
`y_calendar` → `"ycalendar"` (line 308), and `z_calendar` → `"ycalendar"`
as well (line 310). -/
def fields7 (m : Mesh3D X Y Z) : List (String × Json) :=
  List.flatten
    [optField "flatshading" (m.flat_shading.map Json.bool),
     optField "hoverlabel" (m.hover_label.map Label.json),
     optField "lighting" (m.lighting.map Lighting.toJson),
     optField "lightposition" (m.light_position.map LightPosition.toJson),
     optField "xcalendar" (m.x_calendar.map Calendar.toJson),
     optField "ycalendar" (m.y_calendar.map Calendar.toJson),
     optField "ycalendar" (m.z_calendar.map Calendar.toJson),
     optField "uirevision" (m.ui_revision.map NumOrStringWrapper.toJson)]

/-- The full ordered field list of the emitted JSON object: the
discriminant (src/traces/mesh3d.rs:194) followed by the optional fields in
declaration order. -/
def fields (jx : X → Json) (jy : Y → Json) (jz : Z → Json)
    (m : Mesh3D X Y Z) : List (String × Json) :=
  [("type", m.type.toJson)]
  ++ fields1 m ++ fields2 jx jy jz m ++ fields3 m ++ fields4 m
  ++ fields5 m ++ fields6 m ++ fields7 m

/-- `impl Trace for Mesh3D` (src/traces/mesh3d.rs:700-709):
`serde_json::to_string(&self)` renders the object. -/
def toJson (jx : X → Json) (jy : Y → Json) (jz : Z → Json)
    (m : Mesh3D X Y Z) : Json :=
  Json.obj (fields jx jy jz m)

end Mesh3D

/-- One invocation of a public `Mesh3D` fluent setter
(src/traces/mesh3d.rs:352-697) with its argument.  There is one
constructor per setter; note that no setter takes the `x`/`y`/`z`
coordinate vectors or the `i`/`j`/`k` index vectors — those are only
populated by `Mesh3D::new`. -/
inductive Mesh3DOp where
  | name (v : String)
  | visible (v : Visible)
  | show_legend (v : Bool)
  | legend_rank (v : Nat)
  | legend_group (v : String)
  | legend_group_title (v : LegendGroupTitle)
  | opacity (v : Rat)
  | ids (v : List String)
  | facecolor (v : List ColorWrapper)
  | intensity (v : List Rat)
  | intensitymode (v : IntensityMode)
  | vertexcolor (v : List ColorWrapper)
  | text (v : String)
  | text_array (v : List String)
  | hover_text (v : String)
  | hover_text_array (v : List String)
  | hover_info (v : HoverInfo)
  | hover_template (v : String)
  | hover_template_array (v : List String)
  | xhoverformat (v : String)
  | yhoverformat (v : String)
  | meta (v : NumOrStringWrapper)
  | custom_data (v : List NumOrStringWrapper)
  | scene (v : String)
  | coloraxis (v : String)
  | color (v : ColorWrapper)
  | colorbar (v : ColorBar)
  | orientation (v : Orientation)
  | auto_color_scale (v : Bool)
  | color_scale (v : ColorScale)
  | show_scale (v : Bool)
  | reverse_scale (v : Bool)
  | zhoverformat (v : String)
  | cauto (v : Bool)
  | cmax (v : Rat)
  | cmin (v : Rat)
  | cmid (v : Rat)
  | alphahull (v : Rat)
  | delaunayaxis (v : DelaunayAxis)
  | contour (v : Contour)
  | flatshading (v : Bool)
  | hover_label (v : Label)
  | lighting (v : Lighting)
  | lightposition (v : LightPosition)
  | x_calendar (v : Calendar)
  | y_calendar (v : Calendar)
  | z_calendar (v : Calendar)
  | uirevision (v : NumOrStringWrapper)

/-- Apply one public setter invocation to a `Mesh3D` instance. -/
def Mesh3D.applyOp {X Y Z : Type _} (m : Mesh3D X Y Z) : Mesh3DOp → Mesh3D X Y Z
  | .name v => m.set_name v
  | .visible v => m.set_visible v
  | .show_legend v => m.set_show_legend v
  | .legend_rank v => m.set_legend_rank v
  | .legend_group v => m.set_legend_group v
  | .legend_group_title v => m.set_legend_group_title v
  | .opacity v => m.set_opacity v
  | .ids v => m.set_ids v
  | .facecolor v => m.set_facecolor v
  | .intensity v => m.set_intensity v
  | .intensitymode v => m.set_intensitymode v
  | .vertexcolor v => m.set_vertexcolor v
  | .text v => m.set_text v
  | .text_array v => m.set_text_array v
  | .hover_text v => m.set_hover_text v
  | .hover_text_array v => m.set_hover_text_array v
  | .hover_info v => m.set_hover_info v
  | .hover_template v => m.set_hover_template v
  | .hover_template_array v => m.set_hover_template_array v
  | .xhoverformat v => m.set_xhoverformat v
  | .yhoverformat v => m.set_yhoverformat v
  | .meta v => m.set_meta v
  | .custom_data v => m.set_custom_data v
  | .scene v => m.set_scene v
  | .coloraxis v => m.set_coloraxis v
  | .color v => m.set_color v
  | .colorbar v => m.set_colorbar v
  | .orientation v => m.set_orientation v
  | .auto_color_scale v => m.set_auto_color_scale v
  | .color_scale v => m.set_color_scale v
  | .show_scale v => m.set_show_scale v
  | .reverse_scale v => m.set_reverse_scale v
  | .zhoverformat v => m.set_zhoverformat v
  | .cauto v => m.set_cauto v
  | .cmax v => m.set_cmax v
  | .cmin v => m.set_cmin v
  | .cmid v => m.set_cmid v
  | .alphahull v => m.set_alphahull v
  | .delaunayaxis v => m.set_delaunayaxis v
  | .contour v => m.set_contour v
  | .flatshading v => m.set_flatshading v
  | .hover_label v => m.set_hover_label v
  | .lighting v => m.set_lighting v
  | .lightposition v => m.set_lightposition v
  | .x_calendar v => m.set_x_calendar v
  | .y_calendar v => m.set_y_calendar v
  | .z_calendar v => m.set_z_calendar v
  | .uirevision v => m.set_uirevision v

/-- Apply a finite chain of public setter invocations, first to last. -/
def Mesh3D.applyChain {X Y Z : Type _} (m : Mesh3D X Y Z)
    (ops : List Mesh3DOp) : Mesh3D X Y Z :=
  ops.foldl Mesh3D.applyOp m

end mesh3d

/-! ## `src/traces/surface.rs` (the parts the claims reach) -/

namespace surface

/-- `Lighting` (src/traces/surface.rs:10-18): the surface trace's lighting
sub-object, fields `ambient`, `diffuse`, `specular`, `roughness`,
`fresnel`, all optional (`skip_serializing_none`). -/
structure Lighting where
  ambient : Option Rat
  diffuse : Option Rat
  specular : Option Rat
  roughness : Option Rat
  fresnel : Option Rat

/-- `Lighting::new` (src/traces/surface.rs:21-23). -/
def Lighting.new : Lighting :=
  ⟨none, none, none, none, none⟩

/-- `Lighting::ambient` (src/traces/surface.rs:25-28): stores the value
with no precondition check, so it never aborts (contrast
`mesh3d.Lighting.set_ambient`). -/
def Lighting.set_ambient (l : Lighting) (ambient : Rat) : Lighting :=
  { l with ambient := some ambient }

/-- `Lighting::diffuse` (src/traces/surface.rs:30-33): no precondition
check. -/
def Lighting.set_diffuse (l : Lighting) (diffuse : Rat) : Lighting :=
  { l with diffuse := some diffuse }

/-- `Lighting::specular` (src/traces/surface.rs:35-38): no precondition
check. -/
def Lighting.set_specular (l : Lighting) (specular : Rat) : Lighting :=
  { l with specular := some specular }

/-- `Lighting::roughness` (src/traces/surface.rs:40-43): no precondition
check. -/
def Lighting.set_roughness (l : Lighting) (roughness : Rat) : Lighting :=
  { l with roughness := some roughness }

/-- `Lighting::fresnel` (src/traces/surface.rs:45-48): no precondition
check. -/
def Lighting.set_fresnel (l : Lighting) (fresnel : Rat) : Lighting :=
  { l with fresnel := some fresnel }

/-- serde serialization of the surface `Lighting`
(`skip_serializing_none`, no renames). -/
def Lighting.fields (l : Lighting) : List (String × Json) :=
  List.flatten
    [optField "ambient" (l.ambient.map Json.num),
     optField "diffuse" (l.diffuse.map Json.num),
     optField "specular" (l.specular.map Json.num),
     optField "roughness" (l.roughness.map Json.num),
     optField "fresnel" (l.fresnel.map Json.num)]

end surface

end plotly

/-! ## Rendering a `Json` tree to its output string -/

mutual

/-- Rendering of a JSON value to the output string
(`serde_json::to_string`): a pure function of the tree. -/
def Json.render : Json → String
| .null => "null"
| .bool b => if b then "true" else "false"
| .num q => toString q
| .str s => "\"" ++ s ++ "\""
| .arr xs => "[" ++ String.intercalate "," (Json.renderArr xs) ++ "]"
| .obj fs => "\x7b" ++ String.intercalate "," (Json.renderObj fs) ++ "\x7d"

/-- Renders each array element. -/
def Json.renderArr : List Json → List String
| [] => []
| x :: xs => Json.render x :: Json.renderArr xs

/-- Renders each `"key":value` member of an object. -/
def Json.renderObj : List (String × Json) → List String
| [] => []
| (k, v) :: fs => ("\"" ++ k ++ "\":" ++ Json.render v) :: Json.renderObj fs

end

/-! ## Supporting lemmas -/

open plotly

/-- The textual entries collected by `is_valid_color_array`'s loop. -/
def colorStrings (a : List ColorWrapper) : List String :=
  a.filterMap (fun e => match e with | .F _ => none | .S s => some s)

/-- The numeric entries collected by `is_valid_color_array`'s loop. -/
def colorNums (a : List ColorWrapper) : List Rat :=
  a.filterMap (fun e => match e with | .F n => some n | .S _ => none)

theorem is_valid_color_array_foldl (a : List ColorWrapper) :
    ∀ p : List String × List Rat,
      a.foldl
        (fun (p : List String × List Rat) e =>
          match e with
          | ColorWrapper.F n => (p.1, p.2 ++ [n])
          | ColorWrapper.S s => (p.1 ++ [s], p.2)) p
      = (p.1 ++ colorStrings a, p.2 ++ colorNums a) := by
  induction a with
  | nil => intro p; simp [colorStrings, colorNums]
  | cons e a ih =>
    intro p
    cases e with
    | F n => simp [colorStrings, colorNums, List.foldl_cons, ih]
    | S s => simp [colorStrings, colorNums, List.foldl_cons, ih]

theorem is_valid_color_array_eq (a : List ColorWrapper) :
    is_valid_color_array a
      = (!(colorStrings a).isEmpty && !(colorNums a).isEmpty) := by
  unfold is_valid_color_array
  rw [is_valid_color_array_foldl a ([], [])]
  simp

/-- A guarded store `if P then some a else none` succeeds with exactly the
stored value iff the guard holds, and is `some` iff the guard holds. -/
theorem if_some_characterization {α : Type _} (P : Prop) [Decidable P] (a : α) :
    ((if P then some a else none) = some a ↔ P)
    ∧ ((if P then some a else none).isSome = decide P) := by
  by_cases h : P <;> simp [h]

/-! ## Claim theorems -/

/-- C1: serializing `TruthyEnum{e}` renders `e` through the generic JSON
serializer, removes all `"` characters, emits the native boolean on an
exact (case-sensitive) match with `true`/`false`, and otherwise emits the
stripped text as a JSON string; in particular a variant rendering as
`"True"` is emitted as the string `"True"`. -/
theorem C1_truthy_enum_serialization (r : String) :
    (truthyEnumSerialize r = Json.bool true ↔ stripQuotes r = "true")
    ∧ (truthyEnumSerialize r = Json.bool false ↔ stripQuotes r = "false")
    ∧ ((stripQuotes r ≠ "true" ∧ stripQuotes r ≠ "false") ↔
        truthyEnumSerialize r = Json.str (stripQuotes r))
    ∧ ((stripQuotes r).data.all (fun c => c != '"')) = true
    ∧ truthyEnumSerialize "\"True\"" = Json.str "True" := by
  unfold truthyEnumSerialize
  by_cases h1 : stripQuotes r = "true" <;>
    by_cases h2 : stripQuotes r = "false" <;>
      simp_all [stripQuotes, List.all_eq_true, List.mem_filter]

/-- C2: `is_valid_color_array` returns `true` iff the array has at least
one numeric entry and at least one textual entry; in particular it is
`false` on the empty array, on an all-numeric array and on an all-textual
array, and `true` on a genuinely mixed one. -/
theorem C2_is_valid_color_array (a : List ColorWrapper) :
    (is_valid_color_array a = true ↔
      ((∃ e ∈ a, ∃ n, e = ColorWrapper.F n)
        ∧ (∃ e ∈ a, ∃ s, e = ColorWrapper.S s)))
    ∧ is_valid_color_array [] = false
    ∧ is_valid_color_array [ColorWrapper.F 1, ColorWrapper.F 2] = false
    ∧ is_valid_color_array [ColorWrapper.S "red", ColorWrapper.S "blue"] = false
    ∧ is_valid_color_array [ColorWrapper.F 1, ColorWrapper.S "red"] = true := by
  refine ⟨?_, by decide, by decide, by decide, by decide⟩
  rw [is_valid_color_array_eq]
  constructor
  · intro h
    have hs : colorStrings a ≠ [] := by
      intro hnil
      simp [hnil] at h
    have hf : colorNums a ≠ [] := by
      intro hnil
      simp [hnil] at h
    constructor
    · rcases List.exists_mem_of_ne_nil _ hf with ⟨n, hn⟩
      rcases List.mem_filterMap.mp hn with ⟨e, he, hmatch⟩
      refine ⟨e, he, n, ?_⟩
      cases e with
      | F m => simp at hmatch; rw [hmatch]
      | S s => simp at hmatch
    · rcases List.exists_mem_of_ne_nil _ hs with ⟨s, hsmem⟩
      rcases List.mem_filterMap.mp hsmem with ⟨e, he, hmatch⟩
      refine ⟨e, he, s, ?_⟩
      cases e with
      | F m => simp at hmatch
      | S t => simp at hmatch; rw [hmatch]
  · rintro ⟨⟨ef, hef, n, rfl⟩, ⟨es, hes, s, rfl⟩⟩
    have hf : n ∈ colorNums a := List.mem_filterMap.mpr ⟨_, hef, rfl⟩
    have hs : s ∈ colorStrings a := List.mem_filterMap.mpr ⟨_, hes, rfl⟩
    have h1 : (colorStrings a).isEmpty = false := by
      cases hI : (colorStrings a).isEmpty
      · rfl
      · rw [List.isEmpty_iff] at hI; rw [hI] at hs; cases hs
    have h2 : (colorNums a).isEmpty = false := by
      cases hI : (colorNums a).isEmpty
      · rfl
      · rw [List.isEmpty_iff] at hI; rw [hI] at hf; cases hf
    rw [h1, h2]
    rfl

/-- C3: each of the source types {string, string slice, f64, i32, i64,
usize} converts totally into `NumOrStringWrapper` (the conversions below
are total functions), and serializing the wrapper emits the bare
underlying scalar — a JSON string for string sources and a JSON number
for float and integer sources — with no discriminant tag (the output is
never a tagged object). -/
theorem C3_num_or_string_untagged :
    (∀ s : String, (String.to_num_or_string s).toJson = Json.str s)
    ∧ (∀ f : Rat, (f64_to_num_or_string f).toJson = Json.num f)
    ∧ (∀ i : Int, (i32_to_num_or_string i).toJson = Json.num (i : Rat))
    ∧ (∀ i : Int, (i64_to_num_or_string i).toJson = Json.num (i : Rat))
    ∧ (∀ u : Nat, (usize_to_num_or_string u).toJson = Json.num (u : Rat))
    ∧ (∀ w : NumOrStringWrapper, w.toJson.isObj = false) := by
  refine ⟨fun s => rfl, fun f => rfl, fun i => rfl, fun i => rfl,
    fun u => rfl, fun w => ?_⟩
  cases w <;> rfl

/-- C4 counterexample: the claim asserts that the lighting setters of
*every* trace type abort on out-of-range input, but `surface::Lighting`'s
`ambient` setter accepts `2.0 ∉ [0, 1]` (and `fresnel` accepts
`6.0 ∉ [0, 5]`), storing the value with no precondition check. -/
theorem C4_surface_lighting_unchecked :
    (surface.Lighting.new.set_ambient 2)
      = { surface.Lighting.new with ambient := some 2 }
    ∧ (surface.Lighting.new.set_fresnel 6)
      = { surface.Lighting.new with fresnel := some 6 } :=
  ⟨rfl, rfl⟩

/-- C4 (amended): the `Mesh3D` trace's `Lighting` setters detect an
out-of-range coefficient eagerly via a precondition check that aborts
immediately — the call succeeds, storing exactly the given value with no
clamping, iff the argument is within the documented bound (`ambient`,
`diffuse`, `facenormalsepsilon`, `roughness`, `vertexnormalsepsilon` in
`[0, 1]`; `fresnel` in `[0, 5]`; `specular` in `[0, 2]`) — whereas the
`Surface` trace's `Lighting` setters perform no check at all and store
any value. -/
theorem C4_lighting_setter_validation
    (l : mesh3d.Lighting) (ls : surface.Lighting) (v : Rat) :
    (l.set_ambient v = some { l with ambient := some v } ↔ (0 ≤ v ∧ v ≤ 1))
    ∧ ((l.set_ambient v).isSome = decide (0 ≤ v ∧ v ≤ 1))
    ∧ (l.set_diffuse v = some { l with diffuse := some v } ↔ (0 ≤ v ∧ v ≤ 1))
    ∧ ((l.set_diffuse v).isSome = decide (0 ≤ v ∧ v ≤ 1))
    ∧ (l.set_facenormalsepsilon v
        = some { l with face_normals_epsilon := some v } ↔ (0 ≤ v ∧ v ≤ 1))
    ∧ ((l.set_facenormalsepsilon v).isSome = decide (0 ≤ v ∧ v ≤ 1))
    ∧ (l.set_fresnel v = some { l with fresnel := some v } ↔ (0 ≤ v ∧ v ≤ 5))
    ∧ ((l.set_fresnel v).isSome = decide (0 ≤ v ∧ v ≤ 5))
    ∧ (l.set_roughness v = some { l with roughness := some v } ↔ (0 ≤ v ∧ v ≤ 1))
    ∧ ((l.set_roughness v).isSome = decide (0 ≤ v ∧ v ≤ 1))
    ∧ (l.set_specular v = some { l with specular := some v } ↔ (0 ≤ v ∧ v ≤ 2))
    ∧ ((l.set_specular v).isSome = decide (0 ≤ v ∧ v ≤ 2))
    ∧ (l.set_vertexnormalsepsilon v
        = some { l with vertex_normals_epsilon := some v } ↔ (0 ≤ v ∧ v ≤ 1))
    ∧ ((l.set_vertexnormalsepsilon v).isSome = decide (0 ≤ v ∧ v ≤ 1))
    ∧ (ls.set_ambient v = { ls with ambient := some v })
    ∧ (ls.set_diffuse v = { ls with diffuse := some v })
    ∧ (ls.set_specular v = { ls with specular := some v })
    ∧ (ls.set_roughness v = { ls with roughness := some v })
    ∧ (ls.set_fresnel v = { ls with fresnel := some v }) := by
  simp only [mesh3d.Lighting.set_ambient, mesh3d.Lighting.set_diffuse,
    mesh3d.Lighting.set_facenormalsepsilon, mesh3d.Lighting.set_fresnel,
    mesh3d.Lighting.set_roughness, mesh3d.Lighting.set_specular,
    mesh3d.Lighting.set_vertexnormalsepsilon,
    surface.Lighting.set_ambient, surface.Lighting.set_diffuse,
    surface.Lighting.set_specular, surface.Lighting.set_roughness,
    surface.Lighting.set_fresnel]
  refine ⟨(if_some_characterization _ _).1, (if_some_characterization _ _).2,
    (if_some_characterization _ _).1, (if_some_characterization _ _).2,
    (if_some_characterization _ _).1, (if_some_characterization _ _).2,
    (if_some_characterization _ _).1, (if_some_characterization _ _).2,
    (if_some_characterization _ _).1, (if_some_characterization _ _).2,
    (if_some_characterization _ _).1, (if_some_characterization _ _).2,
    (if_some_characterization _ _).1, (if_some_characterization _ _).2,
    trivial, trivial, trivial, trivial, trivial⟩

/-- C5: the claim says a `Mesh3D` with `z_calendar` set serializes that
value under the schema key `"zcalendar"`, distinct from `y_calendar`'s
`"ycalendar"`.  The code instead renames `z_calendar` to `"ycalendar"`
(src/traces/mesh3d.rs:310), so the minimal mesh with `z_calendar` set
emits `"ycalendar"` and no `"zcalendar"` key, and setting both calendars
emits the key `"ycalendar"` twice. -/
theorem C5_z_calendar_serialized_under_ycalendar :
    ((mesh3d.Mesh3D.fields Json.num Json.num Json.num
        ((mesh3d.Mesh3D.new ([] : List Rat) ([] : List Rat) ([] : List Rat)
          [] [] []).set_z_calendar ⟨"gregorian"⟩)).map Prod.fst
      = ["type", "x", "y", "z", "i", "j", "k", "ycalendar"])
    ∧ ((mesh3d.Mesh3D.fields Json.num Json.num Json.num
        (((mesh3d.Mesh3D.new ([] : List Rat) ([] : List Rat) ([] : List Rat)
          [] [] []).set_y_calendar ⟨"gregorian"⟩).set_z_calendar
            ⟨"chinese"⟩)).map Prod.fst
      = ["type", "x", "y", "z", "i", "j", "k", "ycalendar", "ycalendar"]) :=
  ⟨rfl, rfl⟩

/-- C6: a scatter trace built with only its mandatory geometry
(`Scatter::new(x, y)`) serializes to an object whose fields are exactly
the chart-type discriminant and the two coordinate arrays — no optional
field key appears, and in particular no absent field is emitted as
`null`. -/
theorem C6_minimal_scatter_exact_fields {X Y : Type _}
    (jx : X → Json) (jy : Y → Json) (x : List X) (y : List Y) :
    Scatter.fields jx jy (Scatter.new x y)
      = [("type", Json.str "scatter"),
         ("x", Json.arr (x.map jx)),
         ("y", Json.arr (y.map jy))] := by
  rfl

/-- C7: setting the same optional field twice in one chain is
last-write-wins — after `s.name(a).name(b)` the stored name is `b`, and
the serialized object's `name` entry is the JSON string `b`, for every
scatter `s` and all strings `a`, `b`. -/
theorem C7_last_write_wins {X Y : Type _}
    (jx : X → Json) (jy : Y → Json) (s : Scatter X Y) (a b : String) :
    ((s.set_name a).set_name b).name = some b
    ∧ (Scatter.fields jx jy ((s.set_name a).set_name b)).lookup "name"
        = some (Json.str b) := by
  exact ⟨rfl, rfl⟩

/-- `copy_iterable_to_vec` collects a list into itself. -/
theorem copy_iterable_to_vec_eq {α : Type _} (l : List α) :
    copy_iterable_to_vec l = l := by
  induction l with
  | nil => rfl
  | cons a l ih =>
    unfold copy_iterable_to_vec at ih ⊢
    simp [ih]

/-- No public `Mesh3D` setter touches the geometry fields `x`, `y`, `z`,
`i`, `j`, `k`. -/
theorem applyOp_preserves_geometry {X Y Z : Type _}
    (m : mesh3d.Mesh3D X Y Z) (op : mesh3d.Mesh3DOp) :
    (m.applyOp op).x = m.x ∧ (m.applyOp op).y = m.y
    ∧ (m.applyOp op).z = m.z ∧ (m.applyOp op).i = m.i
    ∧ (m.applyOp op).j = m.j ∧ (m.applyOp op).k = m.k := by
  cases op <;> exact ⟨rfl, rfl, rfl, rfl, rfl, rfl⟩

/-- A chain of public setters never changes the geometry fields. -/
theorem applyChain_preserves_geometry {X Y Z : Type _}
    (ops : List mesh3d.Mesh3DOp) :
    ∀ m : mesh3d.Mesh3D X Y Z,
      (m.applyChain ops).x = m.x ∧ (m.applyChain ops).y = m.y
      ∧ (m.applyChain ops).z = m.z ∧ (m.applyChain ops).i = m.i
      ∧ (m.applyChain ops).j = m.j ∧ (m.applyChain ops).k = m.k := by
  induction ops with
  | nil => intro m; exact ⟨rfl, rfl, rfl, rfl, rfl, rfl⟩
  | cons op ops ih =>
    intro m
    have h1 := applyOp_preserves_geometry m op
    have h2 := ih (m.applyOp op)
    simp only [mesh3d.Mesh3D.applyChain, List.foldl_cons] at h2 ⊢
    exact ⟨h2.1.trans h1.1, h2.2.1.trans h1.2.1, h2.2.2.1.trans h1.2.2.1,
      h2.2.2.2.1.trans h1.2.2.2.1, h2.2.2.2.2.1.trans h1.2.2.2.2.1,
      h2.2.2.2.2.2.trans h1.2.2.2.2.2⟩

/-- C8: after `Mesh3D::new(x, y, z, i, j, k)` and any finite chain of
public setter calls, the six mandatory geometry fields are still
populated with exactly the values given at construction — no operation
retracts or clears them. -/
theorem C8_geometry_populated_forever {X Y Z : Type _}
    (x : List X) (y : List Y) (z : List Z) (i j k : List Nat)
    (ops : List mesh3d.Mesh3DOp) :
    ((mesh3d.Mesh3D.new x y z i j k).applyChain ops).x = some x
    ∧ ((mesh3d.Mesh3D.new x y z i j k).applyChain ops).y = some y
    ∧ ((mesh3d.Mesh3D.new x y z i j k).applyChain ops).z = some z
    ∧ ((mesh3d.Mesh3D.new x y z i j k).applyChain ops).i = some i
    ∧ ((mesh3d.Mesh3D.new x y z i j k).applyChain ops).j = some j
    ∧ ((mesh3d.Mesh3D.new x y z i j k).applyChain ops).k = some k := by
  have h := applyChain_preserves_geometry ops (mesh3d.Mesh3D.new x y z i j k)
  have hx : (mesh3d.Mesh3D.new x y z i j k : mesh3d.Mesh3D X Y Z).x = some x := by
    simp [mesh3d.Mesh3D.new, copy_iterable_to_vec_eq]
  have hy : (mesh3d.Mesh3D.new x y z i j k : mesh3d.Mesh3D X Y Z).y = some y := by
    simp [mesh3d.Mesh3D.new, copy_iterable_to_vec_eq]
  have hz : (mesh3d.Mesh3D.new x y z i j k : mesh3d.Mesh3D X Y Z).z = some z := by
    simp [mesh3d.Mesh3D.new, copy_iterable_to_vec_eq]
  have hi : (mesh3d.Mesh3D.new x y z i j k : mesh3d.Mesh3D X Y Z).i = some i := by
    simp [mesh3d.Mesh3D.new, copy_iterable_to_vec_eq]
  have hj : (mesh3d.Mesh3D.new x y z i j k : mesh3d.Mesh3D X Y Z).j = some j := by
    simp [mesh3d.Mesh3D.new, copy_iterable_to_vec_eq]
  have hk : (mesh3d.Mesh3D.new x y z i j k : mesh3d.Mesh3D X Y Z).k = some k := by
    simp [mesh3d.Mesh3D.new, copy_iterable_to_vec_eq]
  exact ⟨h.1.trans hx, h.2.1.trans hy, h.2.2.1.trans hz,
    h.2.2.2.1.trans hi, h.2.2.2.2.1.trans hj, h.2.2.2.2.2.trans hk⟩

/-- A key occurs in an optional field's serialization only if it is that
field's key (and the field is present). -/
@[simp]
theorem mem_map_fst_optField {s k : String} {j : Option Json} :
    s ∈ (optField k j).map Prod.fst ↔ (j.isSome = true ∧ s = k) := by
  cases j <;> simp [optField]

/-- Membership in an optional field's serialization: the single pair
`(k, v)` when the field holds `v`, nothing otherwise. -/
@[simp]
theorem mem_optField {p : String × Json} {k : String} {j : Option Json} :
    p ∈ optField k j ↔ ∃ v, j = some v ∧ p = (k, v) := by
  cases j <;> simp [optField]

theorem orientation_not_in_fields1 {X Y Z : Type _} (m : mesh3d.Mesh3D X Y Z) :
    "orientation" ∉ (mesh3d.Mesh3D.fields1 m).map Prod.fst := by
  intro h
  simp [mesh3d.Mesh3D.fields1] at h

theorem orientation_not_in_fields2 {X Y Z : Type _}
    (jx : X → Json) (jy : Y → Json) (jz : Z → Json) (m : mesh3d.Mesh3D X Y Z) :
    "orientation" ∉ (mesh3d.Mesh3D.fields2 jx jy jz m).map Prod.fst := by
  intro h
  simp [mesh3d.Mesh3D.fields2] at h

theorem orientation_not_in_fields3 {X Y Z : Type _} (m : mesh3d.Mesh3D X Y Z) :
    "orientation" ∉ (mesh3d.Mesh3D.fields3 m).map Prod.fst := by
  intro h
  simp [mesh3d.Mesh3D.fields3] at h

theorem orientation_not_in_fields4 {X Y Z : Type _} (m : mesh3d.Mesh3D X Y Z) :
    "orientation" ∉ (mesh3d.Mesh3D.fields4 m).map Prod.fst := by
  intro h
  simp [mesh3d.Mesh3D.fields4] at h

theorem orientation_not_in_fields5 {X Y Z : Type _} (m : mesh3d.Mesh3D X Y Z) :
    "orientation" ∉ (mesh3d.Mesh3D.fields5 m).map Prod.fst := by
  intro h
  simp [mesh3d.Mesh3D.fields5] at h

theorem orientation_not_in_fields6 {X Y Z : Type _} (m : mesh3d.Mesh3D X Y Z) :
    "orientation" ∉ (mesh3d.Mesh3D.fields6 m).map Prod.fst := by
  intro h
  simp [mesh3d.Mesh3D.fields6] at h

theorem orientation_not_in_fields7 {X Y Z : Type _} (m : mesh3d.Mesh3D X Y Z) :
    "orientation" ∉ (mesh3d.Mesh3D.fields7 m).map Prod.fst := by
  intro h
  simp [mesh3d.Mesh3D.fields7] at h

/-- No `Mesh3D` field serializes under the key `"orientation"`. -/
theorem orientation_not_in_mesh3d_fields {X Y Z : Type _}
    (jx : X → Json) (jy : Y → Json) (jz : Z → Json) (m : mesh3d.Mesh3D X Y Z) :
    "orientation" ∉ (mesh3d.Mesh3D.fields jx jy jz m).map Prod.fst := by
  intro h
  simp only [mesh3d.Mesh3D.fields, List.map_append, List.mem_append] at h
  rcases h with ((((((h | h) | h) | h) | h) | h) | h) | h
  · simp at h
  · exact orientation_not_in_fields1 m h
  · exact orientation_not_in_fields2 jx jy jz m h
  · exact orientation_not_in_fields3 m h
  · exact orientation_not_in_fields4 m h
  · exact orientation_not_in_fields5 m h
  · exact orientation_not_in_fields6 m h
  · exact orientation_not_in_fields7 m h

/-- C9: serialization is a pure function of the trace value — rendering
the same unchanged `Scatter` or `Mesh3D` twice yields byte-identical
JSON strings (the serializer consults no state besides the value). -/
theorem C9_serialization_deterministic {X Y Z : Type _}
    (jx : X → Json) (jy : Y → Json) (jz : Z → Json)
    (s : Scatter X Y) (m : mesh3d.Mesh3D X Y Z) :
    Json.render (Scatter.toJson jx jy s) = Json.render (Scatter.toJson jx jy s)
    ∧ Json.render (mesh3d.Mesh3D.toJson jx jy jz m)
        = Json.render (mesh3d.Mesh3D.toJson jx jy jz m) :=
  ⟨rfl, rfl⟩

/-- C10: `Mesh3D::orientation(o)` writes `o` into the
`color_bar_orientation` field (serialized under the key
`"colorbar_orientation"`) and leaves every other field unchanged — the
struct has no field named `orientation` — and the serialized output of
any `Mesh3D` contains no `"orientation"` key. -/
theorem C10_orientation_setter_frame {X Y Z : Type _}
    (jx : X → Json) (jy : Y → Json) (jz : Z → Json)
    (m : mesh3d.Mesh3D X Y Z) (o : Orientation) :
    (m.set_orientation o).color_bar_orientation = some o
    ∧ (m.set_orientation o).type = m.type
    ∧ (m.set_orientation o).name = m.name
    ∧ (m.set_orientation o).visible = m.visible
    ∧ (m.set_orientation o).show_legend = m.show_legend
    ∧ (m.set_orientation o).legend_rank = m.legend_rank
    ∧ (m.set_orientation o).legend_group = m.legend_group
    ∧ (m.set_orientation o).legend_group_title = m.legend_group_title
    ∧ (m.set_orientation o).opacity = m.opacity
    ∧ (m.set_orientation o).ids = m.ids
    ∧ (m.set_orientation o).x = m.x
    ∧ (m.set_orientation o).y = m.y
    ∧ (m.set_orientation o).z = m.z
    ∧ (m.set_orientation o).i = m.i
    ∧ (m.set_orientation o).j = m.j
    ∧ (m.set_orientation o).k = m.k
    ∧ (m.set_orientation o).face_color = m.face_color
    ∧ (m.set_orientation o).intensity = m.intensity
    ∧ (m.set_orientation o).intensity_mode = m.intensity_mode
    ∧ (m.set_orientation o).vertex_color = m.vertex_color
    ∧ (m.set_orientation o).text = m.text
    ∧ (m.set_orientation o).hover_text = m.hover_text
    ∧ (m.set_orientation o).hover_info = m.hover_info
    ∧ (m.set_orientation o).hover_template = m.hover_template
    ∧ (m.set_orientation o).x_hover_format = m.x_hover_format
    ∧ (m.set_orientation o).y_hover_format = m.y_hover_format
    ∧ (m.set_orientation o).meta = m.meta
    ∧ (m.set_orientation o).custom_data = m.custom_data
    ∧ (m.set_orientation o).scene = m.scene
    ∧ (m.set_orientation o).color_axis = m.color_axis
    ∧ (m.set_orientation o).color = m.color
    ∧ (m.set_orientation o).color_bar = m.color_bar
    ∧ (m.set_orientation o).auto_color_scale = m.auto_color_scale
    ∧ (m.set_orientation o).color_scale = m.color_scale
    ∧ (m.set_orientation o).show_scale = m.show_scale
    ∧ (m.set_orientation o).reverse_scale = m.reverse_scale
    ∧ (m.set_orientation o).z_hover_format = m.z_hover_format
    ∧ (m.set_orientation o).cauto = m.cauto
    ∧ (m.set_orientation o).cmax = m.cmax
    ∧ (m.set_orientation o).cmid = m.cmid
    ∧ (m.set_orientation o).cmin = m.cmin
    ∧ (m.set_orientation o).alpha_hull = m.alpha_hull
    ∧ (m.set_orientation o).delaunay_axis = m.delaunay_axis
    ∧ (m.set_orientation o).contour = m.contour
    ∧ (m.set_orientation o).flat_shading = m.flat_shading
    ∧ (m.set_orientation o).hover_label = m.hover_label
    ∧ (m.set_orientation o).lighting = m.lighting
    ∧ (m.set_orientation o).light_position = m.light_position
    ∧ (m.set_orientation o).x_calendar = m.x_calendar
    ∧ (m.set_orientation o).y_calendar = m.y_calendar
    ∧ (m.set_orientation o).z_calendar = m.z_calendar
    ∧ (m.set_orientation o).ui_revision = m.ui_revision
    ∧ ("orientation" ∈
        (mesh3d.Mesh3D.fields jx jy jz (m.set_orientation o)).map Prod.fst
      ↔ False) :=
  ⟨rfl, rfl, rfl, rfl, rfl, rfl, rfl, rfl, rfl, rfl, rfl, rfl, rfl, rfl, rfl, rfl, rfl, rfl, rfl, rfl, rfl, rfl, rfl, rfl, rfl, rfl, rfl, rfl, rfl, rfl, rfl, rfl, rfl, rfl, rfl, rfl, rfl, rfl, rfl, rfl, rfl, rfl, rfl, rfl, rfl, rfl, rfl, rfl, rfl, rfl, rfl, rfl,
    iff_false_intro (orientation_not_in_mesh3d_fields jx jy jz _)⟩
